import Mathlib

/-!
Shallow embedding of `psycopgwrap.py`, a thin convenience wrapper around a
relational-database driver (psycopg2).  The embedding models:

  * `RowHelper` — the row adapter (`RowHelper.__getattr__`, positional view);
  * `CursorHelper` — the forward-only cursor view (`__getitem__`, `__del__`);
  * `DatabaseClass` — the connection handle (`setup`, `query`, `queryone`,
    `insert`).

Conventions of the embedding:
  * Database values are the inductive `Val`; a driver row (psycopg2 `DictRow`)
    is an insertion-ordered association list `Row := List (String × Val)`:
    positional access is list order, name-keyed access is `List.lookup`.
  * Python `dict`s (in `insert`) are modelled as association lists.  The
    source is Python 2 (`has_key`, `xrange`), whose dict iteration order is
    hash-determined and implementation-defined, so the embedding fixes an
    arbitrary canonical list order merely to have a representation; only
    order-independent consequences of the merge — which key is bound to
    which value (`List.lookup`), and one placeholder per value — are read
    as facts of the program.  No theorem below about the program relies on
    the canonical order.
  * Python exceptions become the `Except PyErr` monad; stateful methods pass
    their object state explicitly and return it (also on the error path, so
    post-error states are observable, matching what a caller who catches the
    exception sees).
  * Python truthiness of a fetched row (`if not row:`) holds when the row is
    absent (`none`) or has no columns (empty list), exactly as for a
    list-backed `DictRow`.
  * The database itself is external: `query` takes an oracle
    `dbExec : String → List Val → List Row` giving the result set the driver
    produces for a statement with positionally bound parameters.
-/

deriving instance DecidableEq for Except

/-- A database value as delivered by the driver. -/
inductive Val where
  | null : Val
  | int : Int → Val
  | str : String → Val
deriving DecidableEq, Repr

/-- A fetched record: ordered column-name/value pairs (psycopg2 `DictRow`). -/
abbrev Row := List (String × Val)

/-- Python exceptions raised or handled by the wrapper. -/
inductive PyErr where
  | valueError : PyErr
  | indexError : PyErr
  | notImplementedError : PyErr
  | interfaceError : PyErr
deriving DecidableEq, Repr

/-- `DictRow.has_key(k)` of the driver row object. -/
def hasKey (r : Row) (k : String) : Bool :=
  (r.lookup k).isSome

namespace RowHelper

/-- The ordered sequence of column values a `RowHelper` exposes
(`super().__init__(row)` seeds the list view with the row's values). -/
def toList (r : Row) : List Val :=
  r.map Prod.snd

/-- The original row object wrapped by a `RowHelper`: its columns, plus the
names of the attributes/methods the row object itself exposes (e.g. `items`,
`has_key`, list methods). -/
structure DictRow where
  cols : Row
  objAttrs : List String
deriving DecidableEq

/-- Result of `RowHelper.__getattr__`. -/
inductive AttrResult where
  | objAttr : String → AttrResult
  | colVal : Val → AttrResult
  | attrError : AttrResult
deriving DecidableEq, Repr

/-- Python's `attr.endswith('_')`: the last character is an underscore. -/
def endsWithUnderscore (s : String) : Bool :=
  s.data.getLast? = some (Char.ofNat 95)

/-- `RowHelper.__getattr__` (psycopgwrap.py lines 61–75):
row-object attributes first, then underscore-suffixed column names, then bare
column names, else `AttributeError`. -/
def getattr (row : DictRow) (attr : String) : AttrResult :=
  if row.objAttrs.contains attr then
    .objAttr attr
  else if endsWithUnderscore attr && hasKey row.cols (attr.dropRight 1) then
    .colVal (((row.cols).lookup (attr.dropRight 1)).getD Val.null)
  else if hasKey row.cols attr then
    .colVal (((row.cols).lookup attr).getD Val.null)
  else
    .attrError

end RowHelper

namespace CursorHelper

/-- State of a live `CursorHelper` together with its driver cursor: the full
result set held by the driver, the driver's fetch position `rownumber`
(rows already fetched), and the wrapper's `currentRecord`. -/
structure State where
  rows : List Row
  rownumber : Nat
  currentRecord : Option Row
deriving DecidableEq, Repr

/-- The driver's reported total row count (`cursor.rowcount`). -/
def rowcount (s : State) : Int :=
  s.rows.length

/-- The driver's `cursor.fetchone()`: returns the next row and advances the
position, or `none` past the end of the result set. -/
def fetchone (s : State) : Option Row × State :=
  match s.rows.get? s.rownumber with
  | some r => (some r, { s with rownumber := s.rownumber + 1 })
  | none => (none, s)

/-- The fetch loop of `__getitem__` (`while index >= self.cursor.rownumber`),
run for its number of iterations: each pass fetches one record; a missing or
empty record (`if not row:`) clears `currentRecord` and raises `IndexError`,
otherwise the record becomes `currentRecord`. -/
def fetchLoop : State → Nat → Except PyErr Unit × State
  | s, 0 => (.ok (), s)
  | s, gas + 1 =>
    match fetchone s with
    | (none, s₁) => (.error .indexError, { s₁ with currentRecord := none })
    | (some row, s₁) =>
      if row.isEmpty then (.error .indexError, { s₁ with currentRecord := none })
      else fetchLoop { s₁ with currentRecord := some row } gas

/-- The negative-index translation at the top of `__getitem__`:
`if index < 0: index = self.cursor.rowcount + index`. -/
def translate (s : State) (index : Int) : Int :=
  if index < 0 then rowcount s + index else index

/-- `__getitem__` after index translation: the sequential-access check
(`index < rownumber - 1` raises `NotImplementedError` before any fetch),
then the fetch loop, then `return self.currentRecord`. -/
def getitemAt (s : State) (idx : Int) : Except PyErr (Option Row) × State :=
  if idx < (s.rownumber : Int) - 1 then
    (.error .notImplementedError, s)
  else
    match fetchLoop s (idx + 1 - (s.rownumber : Int)).toNat with
    | (.ok _, s₁) => (.ok s₁.currentRecord, s₁)
    | (.error e, s₁) => (.error e, s₁)

/-- `CursorHelper.__getitem__` (psycopgwrap.py lines 96–109). -/
def getitem (s : State) (index : Int) : Except PyErr (Option Row) × State :=
  getitemAt s (translate s index)

/-- The release-relevant state of a `CursorHelper`: `self.cursor` is either
absent (already set to `None` by a previous release) or a driver cursor
carrying its closed flag. -/
structure Owner where
  cursor : Option Bool
deriving DecidableEq, Repr

/-- The driver's `cursor.close()`: raises `InterfaceError` when the cursor is
already closed, otherwise marks it closed. -/
def closeCursor (closed : Bool) : Except PyErr Bool :=
  if closed then .error .interfaceError else .ok true

/-- `CursorHelper.__del__` (psycopgwrap.py lines 112–117): if a cursor is
held, close it, swallowing `InterfaceError`, and drop the reference. -/
def del (s : Owner) : Except PyErr Owner :=
  match s.cursor with
  | none => .ok s
  | some closed =>
    match closeCursor closed with
    | .ok _ => .ok { cursor := none }
    | .error .interfaceError => .ok { cursor := none }
    | .error e => .error e

end CursorHelper

namespace DatabaseClass

/-- State of a `DatabaseClass` handle.  `connection` holds the argument the
connection was opened with (present exactly when ready); `connectionsOpened`
counts `DictConnection` constructions, to observe "no new connection". -/
structure State where
  initialized : Bool
  connectString : Option String
  connection : Option String
  connectionsOpened : Nat
deriving DecidableEq, Repr

/-- `DatabaseClass.setup` (psycopgwrap.py lines 143–151): no-op when already
initialized; `ValueError` when no (non-empty) connection string is set;
otherwise open a `DictConnection` and mark the handle ready. -/
def setup (s : State) : Except PyErr State :=
  if s.initialized then .ok s
  else
    match s.connectString with
    | none => .error .valueError
    | some cs =>
      if cs = "" then .error .valueError
      else .ok { s with connection := some cs, initialized := true,
                        connectionsOpened := s.connectionsOpened + 1 }

/-- `DatabaseClass.query` (psycopgwrap.py lines 163–167): ensure setup, open a
fresh cursor, execute the statement with positionally bound arguments through
the external driver oracle `dbExec`, and return the cursor view. -/
def query (dbExec : String → List Val → List Row) (s : State)
    (sql : String) (args : List Val) :
    Except PyErr (CursorHelper.State × State) :=
  match setup s with
  | .error e => .error e
  | .ok s₁ =>
    .ok ({ rows := dbExec sql args, rownumber := 0, currentRecord := none }, s₁)

/-- `DatabaseClass.queryone` (psycopgwrap.py lines 171–179): `query(...)[0]`,
with `IndexError` converted to an absent result. -/
def queryone (dbExec : String → List Val → List Row) (s : State)
    (sql : String) (args : List Val) :
    Except PyErr (Option Row × State) :=
  match query dbExec s sql args with
  | .error e => .error e
  | .ok (c, s₁) =>
    match CursorHelper.getitem c 0 with
    | (.error .indexError, _) => .ok (none, s₁)
    | (.error e, _) => .error e
    | (.ok r, _) => .ok (r, s₁)

/-- Python 2 `base.update(upd)`.  The key-to-value mapping is faithful:
every key of `upd` is bound to `upd`'s value, every other key of `base`
keeps `base`'s value (this is what `List.lookup` on the result observes).
The list order of the result is a canonical representation choice only —
the program's dicts iterate in CPython 2's hash-determined order, which
this embedding does not model and no theorem relies on. -/
def dictUpdate (base upd : Row) : Row :=
  base.map (fun p => (p.1, ((upd.lookup p.1).getD p.2))) ++
    upd.filter (fun p => (base.lookup p.1).isNone)

/-- The field merge of `DatabaseClass.insert` (line 195):
`if dict is not None: kwargs.update(dict)` — on a key collision the value
from `dict` wins over the keyword value.  Only `List.lookup` facts about
the result are facts of the program; its list order is the canonical
representation, not the program's hash-determined iteration order. -/
def mergedFields (dict : Option Row) (kwargs : Row) : Row :=
  match dict with
  | none => kwargs
  | some d => dictUpdate kwargs d

/-- The SQL text and positional values built by `DatabaseClass.insert`
(lines 196–199): column list and value list read off the same merged
mapping in one consistent order, with one placeholder per value.  The
concrete column order shown here is the embedding's canonical order; the
program's `kwargs.keys()`/`kwargs.values()` order is CPython 2's
hash-determined dict order, which is consistent between the two calls but
not modelled. -/
def insertCmd (table : String) (dict : Option Row) (kwargs : Row) :
    String × List Val :=
  let m := mergedFields dict kwargs
  ("INSERT INTO " ++ table ++ " ( " ++
     String.intercalate (",") (m.map Prod.fst) ++ " ) VALUES ( " ++
     String.intercalate (",") (List.replicate (m.map Prod.snd).length ("%s")) ++
     " )",
   m.map Prod.snd)

/-- `DatabaseClass.insert` (psycopgwrap.py lines 183–200): build the INSERT
statement and execute it via `query`, discarding the cursor. -/
def insert (dbExec : String → List Val → List Row) (s : State)
    (table : String) (dict : Option Row) (kwargs : Row) :
    Except PyErr State :=
  match query dbExec s (insertCmd table dict kwargs).1
      (insertCmd table dict kwargs).2 with
  | .error e => .error e
  | .ok x => .ok x.2

end DatabaseClass

namespace CursorHelper

theorem fetchone_rows (s : State) : (fetchone s).2.rows = s.rows := by
  unfold fetchone
  cases s.rows.get? s.rownumber <;> rfl

theorem fetchLoop_rows (n : Nat) (s : State) :
    (fetchLoop s n).2.rows = s.rows := by
  induction n generalizing s with
  | zero => rfl
  | succ n ih =>
    have hr := fetchone_rows s
    unfold fetchLoop
    rcases hf : fetchone s with ⟨o, s₁⟩
    rw [hf] at hr
    rcases o with _ | row
    · simpa using hr
    · by_cases he : row.isEmpty <;> simp [he, ih] <;> simpa using hr

theorem fetchone_some (s t : State) (row : Row)
    (h : fetchone s = (some row, t)) :
    t = { s with rownumber := s.rownumber + 1 } := by
  unfold fetchone at h
  split at h
  · exact (Prod.mk.injEq _ _ _ _ ▸ h).2.symm
  · simp at h

theorem fetchone_none (s t : State) (h : fetchone s = (none, t)) : t = s := by
  unfold fetchone at h
  split at h
  · simp at h
  · exact (Prod.mk.injEq _ _ _ _ ▸ h).2.symm

theorem fetchLoop_ok (n : Nat) (s s₁ : State)
    (h : fetchLoop s n = (.ok (), s₁)) :
    s₁.rownumber = s.rownumber + n ∧ s₁.rows = s.rows := by
  induction n generalizing s with
  | zero =>
    unfold fetchLoop at h
    simp only [Prod.mk.injEq] at h
    rw [← h.2]
    exact ⟨rfl, rfl⟩
  | succ n ih =>
    unfold fetchLoop at h
    split at h
    · simp at h
    · rename_i row t heq
      split at h
      · simp at h
      · have ht := fetchone_some s t row heq
        obtain ⟨h₁, h₂⟩ := ih _ h
        subst ht
        simp only at h₁ h₂
        exact ⟨by omega, h₂⟩

theorem fetchLoop_err (n : Nat) (s s₁ : State) (e : PyErr)
    (h : fetchLoop s n = (.error e, s₁)) :
    e = .indexError ∧ s₁.currentRecord = none ∧ s₁.rows = s.rows := by
  induction n generalizing s with
  | zero =>
    unfold fetchLoop at h
    simp at h
  | succ n ih =>
    unfold fetchLoop at h
    split at h
    · rename_i t heq
      have ht := fetchone_none s t heq
      subst ht
      simp only [Prod.mk.injEq, Except.error.injEq] at h
      rw [← h.2]
      exact ⟨h.1.symm, rfl, rfl⟩
    · rename_i row t heq
      have ht := fetchone_some s t row heq
      split at h
      · simp only [Prod.mk.injEq, Except.error.injEq] at h
        rw [← h.2]
        subst ht
        exact ⟨h.1.symm, rfl, rfl⟩
      · obtain ⟨h₁, h₂, h₃⟩ := ih _ h
        subst ht
        exact ⟨h₁, h₂, by simpa using h₃⟩

theorem getitemAt_ok (s : State) (idx : Int) (v : Option Row) (s₁ : State)
    (h : getitemAt s idx = (.ok v, s₁)) :
    s₁.rows = s.rows ∧ (s₁.rownumber : Int) = idx + 1 ∧
      s₁.currentRecord = v := by
  unfold getitemAt at h
  split at h
  · simp at h
  · rename_i hge
    split at h
    · rename_i u t heq
      simp only [Prod.mk.injEq, Except.ok.injEq] at h
      obtain ⟨hv, hs⟩ := h
      obtain ⟨h₁, h₂⟩ := fetchLoop_ok _ _ _ heq
      subst hs
      exact ⟨h₂, by omega, hv⟩
    · simp at h

theorem getitemAt_err (s : State) (idx : Int) (e : PyErr) (s₁ : State)
    (h : getitemAt s idx = (.error e, s₁)) :
    (e = .notImplementedError ∧ s₁ = s ∧ idx < (s.rownumber : Int) - 1) ∨
      (e = .indexError ∧ s₁.currentRecord = none ∧ s₁.rows = s.rows) := by
  unfold getitemAt at h
  split at h
  · rename_i hlt
    simp only [Prod.mk.injEq, Except.error.injEq] at h
    exact .inl ⟨h.1.symm, h.2.symm, hlt⟩
  · rename_i hge
    split at h
    · simp at h
    · rename_i e₂ t heq
      simp only [Prod.mk.injEq, Except.error.injEq] at h
      obtain ⟨he, hs⟩ := h
      obtain ⟨h₁, h₂, h₃⟩ := fetchLoop_err _ _ _ _ heq
      subst hs
      exact .inr ⟨he ▸ h₁, h₂, h₃⟩

theorem translate_congr (s t : State) (h : t.rows = s.rows) (j : Int) :
    translate t j = translate s j := by
  unfold translate rowcount
  rw [h]

end CursorHelper

namespace DatabaseClass

theorem lookup_append (l₁ l₂ : Row) (c : String) :
    (l₁ ++ l₂).lookup c =
      match l₁.lookup c with
      | some v => some v
      | none => l₂.lookup c := by
  induction l₁ with
  | nil => simp
  | cons p t ih =>
    obtain ⟨k, v⟩ := p
    by_cases h : c == k <;> simp [List.lookup_cons, h, ih]

theorem lookup_map_update (base upd : Row) (c : String) :
    ((base.map fun p => (p.1, (upd.lookup p.1).getD p.2)).lookup c) =
      (base.lookup c).map fun v => (upd.lookup c).getD v := by
  induction base with
  | nil => simp
  | cons p t ih =>
    obtain ⟨k, v⟩ := p
    by_cases h : c == k
    · have hk : c = k := eq_of_beq h
      subst hk
      simp [List.lookup_cons]
    · simp [List.lookup_cons, h, ih]

theorem lookup_filter_not_in_base (base upd : Row) (c : String)
    (h : base.lookup c = none) :
    (upd.filter fun p => (base.lookup p.1).isNone).lookup c = upd.lookup c := by
  induction upd with
  | nil => simp
  | cons p t ih =>
    obtain ⟨k, v⟩ := p
    by_cases hk : c == k
    · have hck : c = k := eq_of_beq hk
      subst hck
      simp [List.filter_cons, h, List.lookup_cons]
    · by_cases hf : (base.lookup k).isNone <;>
        simp [List.filter_cons, hf, List.lookup_cons, hk, ih]

theorem setup_init (s : State) (h : s.initialized = true) :
    setup s = .ok s := by
  unfold setup
  rw [if_pos h]

theorem queryone_eq (dbExec : String → List Val → List Row) (s : State)
    (sql : String) (args : List Val) (h : s.initialized = true) :
    queryone dbExec s sql args =
      match dbExec sql args with
      | [] => .ok (none, s)
      | [] :: _ => .ok (none, s)
      | (p :: ps) :: _ => .ok (some (p :: ps), s) := by
  unfold queryone query
  rw [setup_init s h]
  rcases hrows : dbExec sql args with _ | ⟨_ | ⟨p, ps⟩, rest⟩ <;> rfl

end DatabaseClass

/-- C1 (corrected): in `insert`, the explicit mapping `dict` is merged into
the keyword fields by `kwargs.update(dict)`, so on a key collision the value
bound for a column is the one from `dict`, not the keyword value; columns
absent from `dict` keep their keyword value. -/
theorem insert_dict_precedence (d k : Row) (c : String) :
    ((d.lookup c).isSome = true →
      (DatabaseClass.mergedFields (some d) k).lookup c = d.lookup c) ∧
    (d.lookup c = none →
      (DatabaseClass.mergedFields (some d) k).lookup c = k.lookup c) := by
  unfold DatabaseClass.mergedFields DatabaseClass.dictUpdate
  rw [DatabaseClass.lookup_append, DatabaseClass.lookup_map_update]
  constructor
  · intro hsome
    obtain ⟨w, hw⟩ := Option.isSome_iff_exists.mp hsome
    cases hk : k.lookup c with
    | some v => simp [hw]
    | none => simp [DatabaseClass.lookup_filter_not_in_base k d c hk]
  · intro hnone
    cases hk : k.lookup c with
    | some v => simp [hnone]
    | none => simp [DatabaseClass.lookup_filter_not_in_base k d c hk, hnone, hk]

/-- Witness for C1's theorem: both conjuncts applied at concrete inputs —
a colliding column takes the dictionary value, a non-colliding one the
keyword value. -/
theorem insert_dict_precedence_witness :
    (DatabaseClass.mergedFields (some [("a", Val.int 1), ("b", Val.int 99)])
        [("b", Val.int 2)]).lookup ("b") =
      ([("a", Val.int 1), ("b", Val.int 99)] : Row).lookup ("b") ∧
    (DatabaseClass.mergedFields (some [("a", Val.int 1)])
        [("b", Val.int 2)]).lookup ("b") =
      ([("b", Val.int 2)] : Row).lookup ("b") :=
  ⟨(insert_dict_precedence [("a", Val.int 1), ("b", Val.int 99)]
      [("b", Val.int 2)] "b").1 (by decide),
   (insert_dict_precedence [("a", Val.int 1)] [("b", Val.int 2)] "b").2
      (by decide)⟩

/-- Counterexample to C1 as stated: for `insert('t', <a:1, b:99>, b=2)` the
value bound for column `b` is `99` (the dictionary value), not `2` (the
keyword value) — the keyword fields do not win on key collision. -/
theorem insert_kwargs_precedence_cex :
    (DatabaseClass.mergedFields (some [("a", Val.int 1), ("b", Val.int 99)])
        [("b", Val.int 2)]).lookup ("b") = some (Val.int 99) ∧
    (DatabaseClass.insertCmd ("t") (some [("a", Val.int 1), ("b", Val.int 99)])
        [("b", Val.int 2)]).2 = [Val.int 99, Val.int 1] ∧
    (DatabaseClass.mergedFields (some [("a", Val.int 1), ("b", Val.int 99)])
        [("b", Val.int 2)]).lookup ("b") ≠ some (Val.int 2) := by
  decide

/-- C2 (confirmed): after a successful `get(i)` (with non-negative `i`),
requesting `get(j)` whose translated index is non-negative and strictly less
than `i - 1` fails with `NotImplementedError`, and the state is unchanged —
no record is fetched by the failing call. -/
theorem getitem_rewind_not_implemented (s s₁ : CursorHelper.State)
    (i j : Int) (v : Option Row) (hi : 0 ≤ i)
    (h : CursorHelper.getitem s i = (.ok v, s₁))
    (_hj₀ : 0 ≤ CursorHelper.translate s₁ j)
    (hj : CursorHelper.translate s₁ j < i - 1) :
    CursorHelper.getitem s₁ j = (.error .notImplementedError, s₁) := by
  have h₀ : CursorHelper.getitemAt s (CursorHelper.translate s i) =
      (.ok v, s₁) := h
  obtain ⟨hrows, hrn, hcr⟩ := CursorHelper.getitemAt_ok _ _ _ _ h₀
  have hti : CursorHelper.translate s i = i := by
    unfold CursorHelper.translate
    rw [if_neg (by omega)]
  rw [hti] at hrn
  show CursorHelper.getitemAt s₁ (CursorHelper.translate s₁ j) = _
  unfold CursorHelper.getitemAt
  rw [if_pos (by omega)]

/-- Witness for C2's theorem: fetching row 2 of a three-row result and then
requesting row 0 raises the sequential-access violation with no state
change. -/
theorem getitem_rewind_not_implemented_witness :
    CursorHelper.getitem
        ⟨[[("a", Val.int 0)], [("a", Val.int 1)], [("a", Val.int 2)]], 3,
          some [("a", Val.int 2)]⟩ 0 =
      (.error .notImplementedError,
        ⟨[[("a", Val.int 0)], [("a", Val.int 1)], [("a", Val.int 2)]], 3,
          some [("a", Val.int 2)]⟩) :=
  getitem_rewind_not_implemented
    ⟨[[("a", Val.int 0)], [("a", Val.int 1)], [("a", Val.int 2)]], 0, none⟩
    ⟨[[("a", Val.int 0)], [("a", Val.int 1)], [("a", Val.int 2)]], 3,
      some [("a", Val.int 2)]⟩
    2 0 (some [("a", Val.int 2)]) (by decide) (by decide) (by decide)
    (by decide)

/-- C3 (corrected): with the handle ready, `queryone` returns the absent
value exactly when the result set is empty **or its first row has no
columns** (the `if not row:` test treats an empty record as exhaustion);
when the first row is nonempty, it returns that row (whose ordered values
are the first row's values), and the internal `IndexError` is never
propagated. -/
theorem queryone_first_or_none (dbExec : String → List Val → List Row)
    (s : DatabaseClass.State) (sql : String) (args : List Val)
    (h : s.initialized = true) :
    (DatabaseClass.queryone dbExec s sql args = .ok (none, s) ↔
      dbExec sql args = [] ∨ (dbExec sql args).headD [] = []) ∧
    (∀ r rest, dbExec sql args = r :: rest → r ≠ [] →
      DatabaseClass.queryone dbExec s sql args = .ok (some r, s)) ∧
    DatabaseClass.queryone dbExec s sql args ≠ .error .indexError := by
  rw [DatabaseClass.queryone_eq dbExec s sql args h]
  rcases hrows : dbExec sql args with _ | ⟨_ | ⟨p, ps⟩, rest⟩ <;>
    simp [hrows]

/-- Witness for C3's theorem: a one-row result with a nonempty row makes
`queryone` return that row. -/
theorem queryone_first_or_none_witness :
    DatabaseClass.queryone (fun _ _ => [[("a", Val.int 7)]])
        ⟨true, some ("c"), some ("c"), 1⟩ "q" [] =
      .ok (some [("a", Val.int 7)], ⟨true, some ("c"), some ("c"), 1⟩) :=
  (queryone_first_or_none (fun _ _ => [[("a", Val.int 7)]])
      ⟨true, some ("c"), some ("c"), 1⟩ "q" [] rfl).2.1
    [("a", Val.int 7)] [] rfl (by decide)

/-- Counterexample to C3 as stated: a driver result set consisting of one
zero-column row is nonempty, yet `queryone` returns the absent value — the
claimed equivalence "absent iff the result set is empty" fails. -/
theorem queryone_empty_row_cex :
    ([([] : Row)] : List Row) ≠ [] ∧
    DatabaseClass.queryone (fun _ _ => [[]]) ⟨true, some ("c"), some ("c"), 1⟩
        "q" [] =
      .ok (none, ⟨true, some ("c"), some ("c"), 1⟩) := by
  decide

/-- C5 (confirmed): for a result set whose driver-reported total row count is
`N = rowcount s`, and `1 ≤ k ≤ N`, `get(-k)` from any view state is the very
same computation as `get(N-k)` from that state — the negative index is
translated to `rowcount + index` before any check or fetch. -/
theorem getitem_negative_index (s : CursorHelper.State) (k : Int)
    (h₁ : 1 ≤ k) (h₂ : k ≤ CursorHelper.rowcount s) :
    CursorHelper.getitem s (-k) =
      CursorHelper.getitem s (CursorHelper.rowcount s - k) := by
  unfold CursorHelper.getitem
  congr 1
  unfold CursorHelper.translate
  rw [if_pos (by omega), if_neg (by omega)]
  omega

/-- Witness for C5's theorem: on a three-row result, `get(-1)` equals
`get(rowcount - 1)`. -/
theorem getitem_negative_index_witness :
    CursorHelper.getitem
        ⟨[[("a", Val.int 0)], [("a", Val.int 1)], [("a", Val.int 2)]], 0,
          none⟩ (-1) =
      CursorHelper.getitem
        ⟨[[("a", Val.int 0)], [("a", Val.int 1)], [("a", Val.int 2)]], 0,
          none⟩
        (CursorHelper.rowcount
          ⟨[[("a", Val.int 0)], [("a", Val.int 1)], [("a", Val.int 2)]], 0,
            none⟩ - 1) :=
  getitem_negative_index
    ⟨[[("a", Val.int 0)], [("a", Val.int 1)], [("a", Val.int 2)]], 0, none⟩
    1 (by decide) (by decide)

/-- C6 (confirmed): after a successful `get(i)`, calling `get(i)` again
returns the same cached record with the state unchanged — the repeated call
performs no further fetch from the driver cursor. -/
theorem getitem_repeat_cached (s s₁ : CursorHelper.State) (i : Int)
    (v : Option Row) (h : CursorHelper.getitem s i = (.ok v, s₁)) :
    CursorHelper.getitem s₁ i = (.ok v, s₁) := by
  have h₀ : CursorHelper.getitemAt s (CursorHelper.translate s i) =
      (.ok v, s₁) := h
  obtain ⟨hrows, hrn, hcr⟩ := CursorHelper.getitemAt_ok _ _ _ _ h₀
  show CursorHelper.getitemAt s₁ (CursorHelper.translate s₁ i) = _
  rw [CursorHelper.translate_congr s s₁ hrows i]
  unfold CursorHelper.getitemAt
  rw [if_neg (by omega)]
  have hgas : (CursorHelper.translate s i + 1 - (s₁.rownumber : Int)).toNat
      = 0 := by omega
  rw [hgas]
  simp [CursorHelper.fetchLoop, hcr]

/-- Witness for C6's theorem: after fetching row 2, requesting row 2 again
returns the cached record and leaves the state untouched. -/
theorem getitem_repeat_cached_witness :
    CursorHelper.getitem
        ⟨[[("a", Val.int 0)], [("a", Val.int 1)], [("a", Val.int 2)]], 3,
          some [("a", Val.int 2)]⟩ 2 =
      (.ok (some [("a", Val.int 2)]),
        ⟨[[("a", Val.int 0)], [("a", Val.int 1)], [("a", Val.int 2)]], 3,
          some [("a", Val.int 2)]⟩) :=
  getitem_repeat_cached
    ⟨[[("a", Val.int 0)], [("a", Val.int 1)], [("a", Val.int 2)]], 0, none⟩
    ⟨[[("a", Val.int 0)], [("a", Val.int 1)], [("a", Val.int 2)]], 3,
      some [("a", Val.int 2)]⟩
    2 (some [("a", Val.int 2)]) (by decide)

/-- C7 (confirmed): `setup` on an already-initialized handle is a no-op:
the state (including the count of connections ever opened and the single
held connection) is returned unchanged and no new connection is opened. -/
theorem setup_idempotent (s : DatabaseClass.State)
    (h : s.initialized = true) :
    DatabaseClass.setup s = .ok s :=
  DatabaseClass.setup_init s h

/-- Witness for C7's theorem: a ready handle passes through `setup`
unchanged. -/
theorem setup_idempotent_witness :
    DatabaseClass.setup ⟨true, some ("c"), some ("c"), 1⟩ =
      .ok ⟨true, some ("c"), some ("c"), 1⟩ :=
  setup_idempotent ⟨true, some ("c"), some ("c"), 1⟩ rfl

/-- C8 (confirmed): `RowHelper` attribute access resolves in exactly this
order: (1) an attribute/method the row object itself exposes wins; (2)
otherwise a trailing-underscore name whose stripped form is a column yields
that column's value; (3) otherwise a bare column name yields that column's
value; (4) otherwise the access fails with an attribute error. -/
theorem getattr_resolution_order (row : RowHelper.DictRow) (attr : String) :
    (row.objAttrs.contains attr = true →
      RowHelper.getattr row attr = .objAttr attr) ∧
    (row.objAttrs.contains attr = false →
      RowHelper.endsWithUnderscore attr = true →
      ∀ v, row.cols.lookup (attr.dropRight 1) = some v →
        RowHelper.getattr row attr = .colVal v) ∧
    (row.objAttrs.contains attr = false →
      (RowHelper.endsWithUnderscore attr = false ∨
        row.cols.lookup (attr.dropRight 1) = none) →
      ∀ v, row.cols.lookup attr = some v →
        RowHelper.getattr row attr = .colVal v) ∧
    (row.objAttrs.contains attr = false →
      (RowHelper.endsWithUnderscore attr = false ∨
        row.cols.lookup (attr.dropRight 1) = none) →
      row.cols.lookup attr = none →
      RowHelper.getattr row attr = .attrError) := by
  refine ⟨fun h₁ => ?_, fun h₁ h₂ v hv => ?_, fun h₁ h₂ v hv => ?_,
    fun h₁ h₂ hv => ?_⟩
  · have h₁m : attr ∈ row.objAttrs := by simpa using h₁
    simp [RowHelper.getattr, h₁m]
  · have h₁m : attr ∉ row.objAttrs := by simpa using h₁
    simp [RowHelper.getattr, hasKey, h₁m, h₂, hv]
  · have h₁m : attr ∉ row.objAttrs := by simpa using h₁
    rcases h₂ with h₂ | h₂ <;>
      simp [RowHelper.getattr, hasKey, h₁m, h₂, hv]
  · have h₁m : attr ∉ row.objAttrs := by simpa using h₁
    rcases h₂ with h₂ | h₂ <;>
      simp [RowHelper.getattr, hasKey, h₁m, h₂, hv]

/-- Witness for C8's theorem: all four resolution cases at concrete inputs —
an object attribute shadowing, the trailing-underscore escape hatch, a bare
column, and a missing name. -/
theorem getattr_resolution_order_witness :
    RowHelper.getattr ⟨[("value", Val.int 3)], ["items"]⟩ "items" =
      .objAttr ("items") ∧
    RowHelper.getattr ⟨[("value", Val.int 3)], ["items"]⟩ "value_" =
      .colVal (Val.int 3) ∧
    RowHelper.getattr ⟨[("value", Val.int 3)], ["items"]⟩ "value" =
      .colVal (Val.int 3) ∧
    RowHelper.getattr ⟨[("value", Val.int 3)], ["items"]⟩ "nope" =
      .attrError :=
  ⟨(getattr_resolution_order ⟨[("value", Val.int 3)], ["items"]⟩ "items").1
      (by decide),
   (getattr_resolution_order ⟨[("value", Val.int 3)], ["items"]⟩
      "value_").2.1 (by decide) (by decide) (Val.int 3) (by decide),
   (getattr_resolution_order ⟨[("value", Val.int 3)], ["items"]⟩
      "value").2.2.1 (by decide) (.inl (by decide)) (Val.int 3)
      (by decide),
   (getattr_resolution_order ⟨[("value", Val.int 3)], ["items"]⟩
      "nope").2.2.2 (by decide) (.inl (by decide)) (by decide)⟩

/-- C9 (confirmed): releasing a `CursorView` never raises, from any state —
including a still-open cursor, an already-closed driver cursor (whose
`InterfaceError` is swallowed), and an already-released reference — and a
second release of the resulting state never raises either. -/
theorem del_double_release (s : CursorHelper.Owner) :
    ∃ s₁ s₂, CursorHelper.del s = .ok s₁ ∧ CursorHelper.del s₁ = .ok s₂ := by
  rcases s with ⟨_ | closed⟩
  · exact ⟨⟨none⟩, ⟨none⟩, rfl, rfl⟩
  · cases closed
    · exact ⟨⟨none⟩, ⟨none⟩, rfl, rfl⟩
    · exact ⟨⟨none⟩, ⟨none⟩, rfl, rfl⟩

/-- C10 (confirmed): when `get(i)` fails with the index error after
exhausting the result set, the stored current record is cleared; a
subsequent `get` at index `rownumber - 1` (the most recently passed row
index) returns the absent value, not the previously cached record and not
an error. -/
theorem getitem_exhaustion_clears_current (s s₁ : CursorHelper.State)
    (i : Int) (h : CursorHelper.getitem s i = (.error .indexError, s₁))
    (_hex : s₁.rownumber = s.rows.length) (hfetched : 1 ≤ s₁.rownumber) :
    s₁.currentRecord = none ∧
      CursorHelper.getitem s₁ ((s₁.rownumber : Int) - 1) = (.ok none, s₁) := by
  have h₀ : CursorHelper.getitemAt s (CursorHelper.translate s i) =
      (.error .indexError, s₁) := h
  rcases CursorHelper.getitemAt_err _ _ _ _ h₀ with ⟨hne, _, _⟩ |
    ⟨_, hcr, hrows⟩
  · exact PyErr.noConfusion hne
  · refine ⟨hcr, ?_⟩
    show CursorHelper.getitemAt s₁
        (CursorHelper.translate s₁ ((s₁.rownumber : Int) - 1)) = _
    have ht : CursorHelper.translate s₁ ((s₁.rownumber : Int) - 1) =
        (s₁.rownumber : Int) - 1 := by
      unfold CursorHelper.translate
      rw [if_neg (by omega)]
    rw [ht]
    unfold CursorHelper.getitemAt
    rw [if_neg (by omega)]
    have hgas : ((s₁.rownumber : Int) - 1 + 1 - (s₁.rownumber : Int)).toNat
        = 0 := by omega
    rw [hgas]
    simp [CursorHelper.fetchLoop, hcr]

/-- Witness for C10's theorem: on a one-row result, `get(5)` exhausts the
set and fails; `get(0)` afterwards returns the absent value with the state
unchanged. -/
theorem getitem_exhaustion_clears_current_witness :
    (⟨[[("a", Val.int 0)]], 1, none⟩ : CursorHelper.State).currentRecord =
      none ∧
    CursorHelper.getitem (⟨[[("a", Val.int 0)]], 1, none⟩ :
        CursorHelper.State)
        (((⟨[[("a", Val.int 0)]], 1, none⟩ :
          CursorHelper.State).rownumber : Int) - 1) =
      (.ok none, ⟨[[("a", Val.int 0)]], 1, none⟩) :=
  getitem_exhaustion_clears_current ⟨[[("a", Val.int 0)]], 0, none⟩
    ⟨[[("a", Val.int 0)]], 1, none⟩ 5 (by decide) (by decide) (by decide)
